import Mathlib

/-!
Verification of the KoRoBERTa replaced-token-detection training script
(`train_rtd_flax.py`) against its specification.

The development shallowly embeds the data-preparation collator
(`FlaxDataCollatorForMaskedLM`) and the training step (`train_step`) of the
script.  Arrays are modelled as functions out of `Fin m` with integer token
ids and rational numerics; the numpy random draws consumed by the collator are
modelled as explicit per-position uniforms; jax's splittable PRNG keys are
modelled as a symbolic tree so that distinctness of split streams is captured
by constructor disjointness.  External collaborators (the transformer apply
functions, optax's per-position cross-entropy primitives, the autodiff
operator and the optimizer update) are opaque parameters bundled in
collaborator records, exactly at the interface the script uses them.
Probability literals such as 0.8 are written `mkRat 8 10`.
-/

set_option maxHeartbeats 1000000

namespace KoRoBERTa

/-- Tokenizer collaborator interface: the reserved special ids, the mask
token id (`convert_tokens_to_ids(mask_token)`) and the vocabulary size. -/
structure Tok where
  allSpecialIds : List Int
  maskTokenId : Int
  vocabSize : Nat

/-- Per-position underlying uniforms consumed by the numpy sampling calls in
`mask_tokens`: `uMask` feeds `np.random.binomial(1, probability_matrix)`,
`uRepl` the 0.8 replacement draw, `uRand` the 0.5 random-word draw, and
`words` are the outcomes of `np.random.randint(vocab_size, size=...)`. -/
structure NpDraws (m : Nat) where
  uMask : Fin m → ℚ
  uRepl : Fin m → ℚ
  uRand : Fin m → ℚ
  words : Fin m → Int

/-- Outcome of `np.random.binomial(1, p)` given its underlying uniform `u`:
the draw is 1 exactly when `u < p` (so probability 0 always yields 0). -/
def bernoulli (u p : ℚ) : Bool := decide (u < p)

/-- `FlaxDataCollatorForMaskedLM.get_special_tokens_mask`: positions whose
token id is one of the tokenizer's special ids. -/
def get_special_tokens_mask (tok : Tok) (input_ids : Fin m → Int) : Fin m → Bool :=
  fun i => tok.allSpecialIds.any (fun s => input_ids i == s)

/-- `FlaxDataCollatorForMaskedLM.mask_tokens`.  Returns the corrupted inputs,
the labels and the masked-indices mask, in the script's order:
`labels` is a copy taken before any corruption, so it holds the raw token at
selected positions and -100 elsewhere; corruption replaces selected positions
with the mask token (0.8 draw) or, among the remaining selected positions
passing the 0.5 draw, with a random word.  Note the underlying array `inputs`
is corrupted in place in the source; the in-place effect is accounted for at
the call site (`collatorCall`). -/
def mask_tokens (tok : Tok) (p : ℚ) (r : NpDraws m) (inputs : Fin m → Int)
    (special_tokens : Fin m → Bool) :
    (Fin m → Int) × (Fin m → Int) × (Fin m → Bool) :=
  let masked_indices : Fin m → Bool :=
    fun i => bernoulli (r.uMask i) (if special_tokens i then 0 else p)
  let labels : Fin m → Int := fun i => if masked_indices i then inputs i else -100
  let indices_replaced : Fin m → Bool :=
    fun i => bernoulli (r.uRepl i) (mkRat 8 10) && masked_indices i
  let afterMask : Fin m → Int :=
    fun i => if indices_replaced i then tok.maskTokenId else inputs i
  let indices_random : Fin m → Bool :=
    fun i => (bernoulli (r.uRand i) (mkRat 1 2) && masked_indices i) && !indices_replaced i
  let corrupted : Fin m → Int :=
    fun i => if indices_random i then r.words i else afterMask i
  (corrupted, labels, masked_indices)

/-- The dictionary returned by `FlaxDataCollatorForMaskedLM.__call__`. -/
structure CollatedBatch (m : Nat) where
  input_ids : Fin m → Int
  attention_mask : Fin m → Int
  original_ids : Fin m → Int
  labels : Fin m → Int
  masked_indices : Fin m → Bool

/-- `FlaxDataCollatorForMaskedLM.__call__`.  In the source,
`batch["original_ids"]` is bound to the *same* numpy array object as
`batch["input_ids"]` (no copy is taken), and `mask_tokens` corrupts that array
in place before returning it; consequently after the call both keys hold the
corrupted contents.  The embedding therefore sets `original_ids` to the
corrupted array.  `attention_mask` is a fresh all-ones array created before
any mutation. -/
def collatorCall (tok : Tok) (p : ℚ) (r : NpDraws m) (input_ids : Fin m → Int) :
    CollatedBatch m :=
  let special := get_special_tokens_mask tok input_ids
  let res := mask_tokens tok p r input_ids special
  { input_ids := res.1
    attention_mask := fun _ => 1
    original_ids := res.1
    labels := res.2.1
    masked_indices := res.2.2 }

/-- Concrete tokenizer for counterexamples: special ids {0}, mask token id 4,
vocabulary size 10. -/
def tok0 : Tok := ⟨[0], 4, 10⟩

/-- Concrete draws: position selected for masking (0.1 < 0.15), replacement
draw 0.5 < 0.8 (so the position is replaced by the mask token), random-word
draw 0.9 (not below 0.5), random word 7. -/
def draws0 : NpDraws 1 :=
  ⟨fun _ => mkRat 1 10, fun _ => mkRat 1 2, fun _ => mkRat 9 10, fun _ => 7⟩

/-- Concrete raw input: the single non-special token 5. -/
def input0 : Fin 1 → Int := fun _ => 5

/-- Draws under which no position is selected (0.9 is not below 0.15), so the
first call corrupts nothing. -/
def draws1 : NpDraws 1 :=
  ⟨fun _ => mkRat 9 10, fun _ => mkRat 1 2, fun _ => mkRat 9 10, fun _ => 7⟩

/-!
### Training step embedding

`train_step` (source lines 472-578) together with the rng wiring of `main`.
-/

/-- Symbolic model of jax's splittable PRNG keys: `prngKey seed` is
`jax.random.PRNGKey(seed)` and `child k i` is the i-th key returned by
`jax.random.split(k, _)`.  Constructor disjointness/injectivity captures that
distinct split streams never collide. -/
inductive Key where
  | prngKey (seed : Nat) : Key
  | child (k : Key) (i : Nat) : Key
deriving DecidableEq

/-- `jax.random.split(k, 3)`, as used at the top of `train_step`:
`dropout_rng, new_dropout_rng, sample_rng = jax.random.split(dropout_rng, 3)`. -/
def split3 (k : Key) : Key × Key × Key := (Key.child k 0, Key.child k 1, Key.child k 2)

/-- `flax.training.train_state.TrainState`: a parameter tree plus the
optimizer's internal state (the apply function is carried by the collaborator
records below). -/
structure TState (P O : Type) where
  params : P
  optState : O

/-- Generator-side collaborators of `train_step`, at exactly the interface the
script uses: the model's apply function (`state_g.apply_fn`, returning
per-position logits over the `V+1`-word vocabulary), optax's per-position
`softmax_cross_entropy`, the autodiff operator `jax.value_and_grad` (only the
gradient component matters here), the cross-device `jax.lax.psum` on gradient
trees, elementwise division of a gradient tree by a scalar (the
`jax.tree_util.tree_map (fun x => x / n)`), `TrainState.apply_gradients`, the
word-embedding table lookup
(`params["roberta"]["embeddings"]["word_embeddings"]["embedding"]`, a vector
of `E` components per id), and `jax.random.gumbel`. -/
structure GenCollab (n V E D : Nat) (P G O : Type) where
  applyFn : P → (Fin n → Int) → (Fin n → Int) → Key → (Fin n → Fin (V + 1) → ℚ)
  sce : (Fin (V + 1) → ℚ) → (Fin (V + 1) → ℚ) → ℚ
  valueAndGrad : (P → ℚ) → P → G
  psumGrad : (Fin D → G) → G
  divGrad : G → ℚ → G
  applyGradients : TState P O → G → TState P O
  wordEmb : P → Int → Fin E → ℚ
  gumbel : Key → Fin n → Fin (V + 1) → ℚ

/-- Discriminator-side collaborators of `train_step` (the discriminator's
apply function additionally takes the `inputs_embeds` override and returns one
binary logit per position; `sbce` is optax's `sigmoid_binary_cross_entropy`). -/
structure DiscCollab (n E D : Nat) (P G O : Type) where
  applyFn : P → (Fin n → Int) → (Fin n → Int) → (Fin n → Fin E → ℚ) → Key → (Fin n → ℚ)
  sbce : ℚ → ℚ → ℚ
  valueAndGrad : (P → ℚ) → P → G
  psumGrad : (Fin D → G) → G
  divGrad : G → ℚ → G
  applyGradients : TState P O → G → TState P O
  wordEmb : P → Int → Fin E → ℚ

/-- `flax.training.common_utils.onehot(labels, V+1)`: the row for label `l` is
1 at index `l` and 0 elsewhere; out-of-range labels (such as the -100
sentinel) give an all-zero row. -/
def onehot (V : Nat) (l : Int) : Fin (V + 1) → ℚ := fun j => if l = (j : Int) then 1 else 0

/-- `jnp.where(labels > 0, 1.0, 0.0)` at one position. -/
def labelMask (l : Int) : ℚ := if 0 < l then 1 else 0

/-- `jnp.argmax` along the vocabulary axis: index of the first occurrence of
the maximum. -/
def argmaxFin (f : Fin (V + 1) → ℚ) : Fin (V + 1) :=
  (List.finRange (V + 1)).foldl (fun best j => if f best < f j then j else best) 0

/-- The cross-device normalization pattern of `train_step`:
`jax.lax.psum` of the per-device values divided by `jax.lax.psum` of the
per-device counts. -/
def globalNormalize (D : Nat) (loss count : Fin D → ℚ) : ℚ :=
  (∑ d, loss d) / (∑ d, count d)

/-- First component of `jax.random.split(dropout_rng, 3)` on device `d`: the
dropout key consumed by both forward passes of this step. -/
def deviceDropoutKey (dropoutRngs : Fin D → Key) (d : Fin D) : Key :=
  (split3 (dropoutRngs d)).1

/-- Second component of the split: `new_dropout_rng`, returned for the next
step. -/
def deviceNextKey (dropoutRngs : Fin D → Key) (d : Fin D) : Key :=
  (split3 (dropoutRngs d)).2.1

/-- Third component of the split: `sample_rng` (computed by the script and
never used afterwards). -/
def deviceSampleKey (dropoutRngs : Fin D → Key) (d : Fin D) : Key :=
  (split3 (dropoutRngs d)).2.2

/-- Loss value of `generator_loss_fn` as a function of the generator
parameters: per-position softmax cross-entropy against the one-hot labels,
multiplied elementwise by the `labels > 0` mask, then summed. -/
def genLossVal (gc : GenCollab n V E D P G O) (b : CollatedBatch n) (dk : Key)
    (params : P) : ℚ :=
  let logits := gc.applyFn params b.input_ids b.attention_mask dk
  ∑ i, gc.sce (logits i) (onehot V (b.labels i)) * labelMask (b.labels i)

/-- `num_labels = label_mask.sum()` of `generator_loss_fn`. -/
def genNumLabels (b : CollatedBatch n) : ℚ := ∑ i, labelMask (b.labels i)

/-- Generator logits on device `d`, computed at the *incoming* generator
parameters (these are the `logits` aux output threaded to the sampling
step). -/
def stepGenLogits (gc : GenCollab n V E D P G O) (sg : TState P O)
    (batch : Fin D → CollatedBatch n) (dropoutRngs : Fin D → Key) (d : Fin D) :
    Fin n → Fin (V + 1) → ℚ :=
  gc.applyFn sg.params (batch d).input_ids (batch d).attention_mask
    (deviceDropoutKey dropoutRngs d)

/-- `num_labels_g = jax.lax.psum(num_labels, "batch")`. -/
def stepNumLabelsG (batch : Fin D → CollatedBatch n) : ℚ :=
  ∑ d, genNumLabels (batch d)

/-- The globally normalized generator loss placed in the metrics record. -/
def stepGenLossNorm (gc : GenCollab n V E D P G O) (sg : TState P O)
    (batch : Fin D → CollatedBatch n) (dropoutRngs : Fin D → Key) : ℚ :=
  globalNormalize D
    (fun d => genLossVal gc (batch d) (deviceDropoutKey dropoutRngs d) sg.params)
    (fun d => genNumLabels (batch d))

/-- The reduced, normalized generator gradient:
`psum` of the per-device gradients divided elementwise by the global
`num_labels_g`. -/
def stepGenGrad (gc : GenCollab n V E D P G O) (sg : TState P O)
    (batch : Fin D → CollatedBatch n) (dropoutRngs : Fin D → Key) : G :=
  gc.divGrad
    (gc.psumGrad fun d =>
      gc.valueAndGrad (genLossVal gc (batch d) (deviceDropoutKey dropoutRngs d)) sg.params)
    (stepNumLabelsG batch)

/-- `new_state_g = state_g.apply_gradients(grads=generator_grad)` — a
definition mentioning no discriminator object at all. -/
def stepNewStateG (gc : GenCollab n V E D P G O) (sg : TState P O)
    (batch : Fin D → CollatedBatch n) (dropoutRngs : Fin D → Key) : TState P O :=
  gc.applyGradients sg (stepGenGrad gc sg batch dropoutRngs)

/-- `gumbel = jax.random.gumbel(rng, logits.shape)`: the key passed is `rng`,
the variable captured from `main`'s closure (the fixed `PRNGKey(seed)`); the
step's own `dropout_rng`/`sample_rng` in scope are not consulted, which the
unused second argument records. -/
def stepGumbelNoise (gc : GenCollab n V E D P G O) (rng : Key) (_k : Key) :
    Fin n → Fin (V + 1) → ℚ :=
  gc.gumbel rng

/-- The Gumbel-max sample `jnp.argmax(logits + gumbel, axis=-1)` on device
`d`, as an integer token id. -/
def stepSampledIds (gc : GenCollab n V E D P G O) (rng : Key) (sg : TState P O)
    (batch : Fin D → CollatedBatch n) (dropoutRngs : Fin D → Key) (d : Fin D)
    (i : Fin n) : Int :=
  ((argmaxFin fun v =>
      stepGenLogits gc sg batch dropoutRngs d i v +
        stepGumbelNoise gc rng (dropoutRngs d) i v) : Fin (V + 1)).val

/-- `pred_ids = jnp.where(batch["masked_indices"], pred_ids, batch["input_ids"])`. -/
def stepPredIds (gc : GenCollab n V E D P G O) (rng : Key) (sg : TState P O)
    (batch : Fin D → CollatedBatch n) (dropoutRngs : Fin D → Key) (d : Fin D)
    (i : Fin n) : Int :=
  if (batch d).masked_indices i then stepSampledIds gc rng sg batch dropoutRngs d i
  else (batch d).input_ids i

/-- `batch["replaced_ids"] = (pred_ids != batch["original_ids"])`. -/
def stepReplacedIds (gc : GenCollab n V E D P G O) (rng : Key) (sg : TState P O)
    (batch : Fin D → CollatedBatch n) (dropoutRngs : Fin D → Key) (d : Fin D)
    (i : Fin n) : Bool :=
  decide (stepPredIds gc rng sg batch dropoutRngs d i ≠ (batch d).original_ids i)

/-- The `inputs_embeds` override built inside `discriminator_loss_fn`: the
average of the discriminator's own embedding lookup at the differentiated
parameters and the generator's embedding lookup at the *incoming*
`state_g.params`, both at `pred_ids`. -/
def stepInputEmbeds (gc : GenCollab n V E D P G O) (dc : DiscCollab n E D Q H R)
    (rng : Key) (sg : TState P O) (batch : Fin D → CollatedBatch n)
    (dropoutRngs : Fin D → Key) (params : Q) (d : Fin D) (i : Fin n) :
    Fin E → ℚ :=
  fun e =>
    (dc.wordEmb params (stepPredIds gc rng sg batch dropoutRngs d i) e +
        gc.wordEmb sg.params (stepPredIds gc rng sg batch dropoutRngs d i) e) / 2

/-- Loss value of `discriminator_loss_fn` as a function of the discriminator
parameters: elementwise sigmoid binary cross-entropy against the 0/1
`replaced_ids` over every position, summed, then scaled by 50. -/
def discLossVal (gc : GenCollab n V E D P G O) (dc : DiscCollab n E D Q H R)
    (rng : Key) (sg : TState P O) (batch : Fin D → CollatedBatch n)
    (dropoutRngs : Fin D → Key) (d : Fin D) (params : Q) : ℚ :=
  let dlogits :=
    dc.applyFn params (stepPredIds gc rng sg batch dropoutRngs d)
      (batch d).attention_mask (stepInputEmbeds gc dc rng sg batch dropoutRngs params d)
      (deviceDropoutKey dropoutRngs d)
  (∑ i, dc.sbce (dlogits i)
      (if stepReplacedIds gc rng sg batch dropoutRngs d i then 1 else 0)) * 50

/-- `num_labels = jnp.ones_like(labels).sum()` of `discriminator_loss_fn`: the
shard's position count. -/
def discNumLabels (n : Nat) : ℚ := ∑ _i : Fin n, (1 : ℚ)

/-- `num_labels_d = jax.lax.psum(num_labels, "batch")`. -/
def stepNumLabelsD (n D : Nat) : ℚ := ∑ _d : Fin D, discNumLabels n

/-- The globally normalized discriminator loss placed in the metrics record. -/
def stepDiscLossNorm (gc : GenCollab n V E D P G O) (dc : DiscCollab n E D Q H R)
    (rng : Key) (sg : TState P O) (sd : TState Q R)
    (batch : Fin D → CollatedBatch n) (dropoutRngs : Fin D → Key) : ℚ :=
  globalNormalize D
    (fun d => discLossVal gc dc rng sg batch dropoutRngs d sd.params)
    (fun _ => discNumLabels n)

/-- The reduced, normalized discriminator gradient. -/
def stepDiscGrad (gc : GenCollab n V E D P G O) (dc : DiscCollab n E D Q H R)
    (rng : Key) (sg : TState P O) (sd : TState Q R)
    (batch : Fin D → CollatedBatch n) (dropoutRngs : Fin D → Key) : H :=
  dc.divGrad
    (dc.psumGrad fun d =>
      dc.valueAndGrad (discLossVal gc dc rng sg batch dropoutRngs d) sd.params)
    (stepNumLabelsD n D)

/-- `new_state_d = state_d.apply_gradients(grads=discriminator_grad)`. -/
def stepNewStateD (gc : GenCollab n V E D P G O) (dc : DiscCollab n E D Q H R)
    (rng : Key) (sg : TState P O) (sd : TState Q R)
    (batch : Fin D → CollatedBatch n) (dropoutRngs : Fin D → Key) : TState Q R :=
  dc.applyGradients sd (stepDiscGrad gc dc rng sg sd batch dropoutRngs)

/-- The metrics dictionary built at the end of `train_step`:
`{"generator_loss": ..., "discriminator_loss": ...}`, as an association
list. -/
def stepMetrics (gc : GenCollab n V E D P G O) (dc : DiscCollab n E D Q H R)
    (rng : Key) (sg : TState P O) (sd : TState Q R)
    (batch : Fin D → CollatedBatch n) (dropoutRngs : Fin D → Key) :
    List (String × ℚ) :=
  [("generator_loss", stepGenLossNorm gc sg batch dropoutRngs),
   ("discriminator_loss", stepDiscLossNorm gc dc rng sg sd batch dropoutRngs)]

/-- `train_step` as executed under `jax.pmap(train_step, axis_name="batch")`:
every device runs the same program on its shard and its dropout key, the
`psum` collectives sum across the device axis, and the function returns the
per-device new states, metrics and next-step dropout keys.  `rng` is the
variable captured from `main`'s closure. -/
def trainStep (gc : GenCollab n V E D P G O) (dc : DiscCollab n E D Q H R)
    (rng : Key) (sg : TState P O) (sd : TState Q R)
    (batch : Fin D → CollatedBatch n) (dropoutRngs : Fin D → Key) :
    (Fin D → TState P O) × (Fin D → TState Q R) × (Fin D → List (String × ℚ)) ×
      (Fin D → Key) :=
  (fun _ => stepNewStateG gc sg batch dropoutRngs,
   fun _ => stepNewStateD gc dc rng sg sd batch dropoutRngs,
   fun _ => stepMetrics gc dc rng sg sd batch dropoutRngs,
   fun d => deviceNextKey dropoutRngs d)

/-- The scalar read by the driver's logging call
`wandb.log({"loss": float(train_metric["loss"])}, step=cur_step)`: dictionary
access modelled as association-list lookup, `none` modelling the `KeyError`
raised for a missing key. -/
def wandbLoggedLoss (metric : List (String × ℚ)) : Option ℚ :=
  metric.lookup ("loss")

/-- `rng = jax.random.PRNGKey(training_args.seed)` in `main`. -/
def mainRng (seed : Nat) : Key := Key.prngKey seed

/-- `dropout_rngs = jax.random.split(rng, jax.local_device_count())` in
`main`: one sub-stream per device. -/
def mainDropoutRngs (seed : Nat) (numDevices : Nat) : Fin numDevices → Key :=
  fun d => Key.child (mainRng seed) d.val

/-- Degenerate but fully concrete generator collaborators (one device, one
position, vocabulary {0}): constant logits and noise, trivial gradients. -/
def gcW : GenCollab 1 0 0 1 Unit Unit Unit :=
  ⟨fun _ _ _ _ _ _ => 0, fun _ _ => 0, fun _ _ => (), fun _ => (), fun _ _ => (),
   fun s _ => s, fun _ _ _ => 0, fun _ _ _ => 0⟩

/-- Concrete one-device batch: input token 5, original token 7, position
masked. -/
def batchW : Fin 1 → CollatedBatch 1 :=
  fun _ => ⟨fun _ => 5, fun _ => 1, fun _ => 7, fun _ => 7, fun _ => true⟩

/-- Concrete trivial train state. -/
def sgW : TState Unit Unit := ⟨(), ()⟩

/-!
### Theorems
-/

/-- A key is never one of its own split children (no stream value coincides
with the key it was split from). -/
theorem key_child_ne (k : Key) (i : Nat) : Key.child k i ≠ k := by
  induction k generalizing i with
  | prngKey s => intro h; exact Key.noConfusion h
  | child k' j ih =>
      intro h
      have h1 : Key.child k' j = k' := ((Key.child.injEq _ _ _ _).mp h).1
      exact ih j h1

/-- C1: the claim fails on the code.  On the concrete batch `[5]` the single
position is selected and replaced by the mask token 4; because
`batch["original_ids"]` aliases the buffer that `mask_tokens` corrupts in
place, the returned `original_ids` is 4 — the corrupted id, not the raw
input 5 — and moreover `input_ids` and `original_ids` coincide on every
batch (last conjunct), so the two fields never differ at corrupted
positions. -/
theorem c1_originalIds_corrupted :
    ((collatorCall tok0 (mkRat 15 100) draws0 input0).original_ids 0 = 4 ∧
      input0 0 = 5 ∧
      (collatorCall tok0 (mkRat 15 100) draws0 input0).input_ids 0 =
        (collatorCall tok0 (mkRat 15 100) draws0 input0).original_ids 0) ∧
    ∀ (m : Nat) (tok : Tok) (p : ℚ) (r : NpDraws m) (x : Fin m → Int),
      (collatorCall tok p r x).input_ids = (collatorCall tok p r x).original_ids :=
  ⟨by decide, fun _ _ _ _ _ => rfl⟩

/-- C6: labels invariant of the collator output.  For every batch produced by
the collator and every position, `labels i` is the raw (uncorrupted) token id
`x i` when `masked_indices i` holds and the ignore sentinel -100 otherwise:
the copy feeding `labels` is taken before any in-place corruption. -/
theorem c6_labels_invariant (m : Nat) (tok : Tok) (p : ℚ) (r : NpDraws m)
    (x : Fin m → Int) (i : Fin m) :
    (collatorCall tok p r x).labels i =
      if (collatorCall tok p r x).masked_indices i then x i else -100 := rfl

/-- C5 counterexample: calling the collator a second time on the same buffer
(whose contents after the first call are the corrupted `input_ids`) with the
same fixed random stream produces a different output: the first call returns
label 5 (the raw token) at the masked position while the second returns 4
(the mask token written into the shared buffer by the first call). -/
theorem c5_second_call_differs :
    (collatorCall tok0 (mkRat 15 100) draws0
        ((collatorCall tok0 (mkRat 15 100) draws0 input0).input_ids)).labels 0 ≠
      (collatorCall tok0 (mkRat 15 100) draws0 input0).labels 0 := by decide

/-- C5 (amended): the collator is deterministic in the value of its input
buffer and the random stream, but it corrupts the buffer in place; a second
call on the same buffer reproduces the first call's output exactly when the
first call left the buffer unchanged.  (The counterexample shows that when
some position is corrupted, the second call's labels differ — the in-place
mutation is hidden state carried between calls.) -/
theorem c5_deterministic_when_uncorrupted (m : Nat) (tok : Tok) (p : ℚ)
    (r : NpDraws m) (x : Fin m → Int)
    (h : (collatorCall tok p r x).input_ids = x) :
    collatorCall tok p r ((collatorCall tok p r x).input_ids) =
      collatorCall tok p r x := by
  rw [h]

/-- C5 witness: with draws selecting no position, the buffer is unchanged and
the second call reproduces the first call's output. -/
theorem c5_witness :
    collatorCall tok0 (mkRat 15 100) draws1
        ((collatorCall tok0 (mkRat 15 100) draws1 input0).input_ids) =
      collatorCall tok0 (mkRat 15 100) draws1 input0 :=
  c5_deterministic_when_uncorrupted 1 tok0 (mkRat 15 100) draws1 input0 (by decide)

/-- C2: discriminator target correctness of the step's input synthesis.  For
any batch whose `original_ids` agree with `input_ids` at unmasked positions
(true of well-formed collator output, where corruption touches only masked
positions), `replaced_ids i` holds iff the Gumbel-max sampled id differs from
`original_ids i` and the position was masked; unmasked positions always give
`replaced_ids i = false`. -/
theorem c2_replaced_ids_iff (gc : GenCollab n V E D P G O) (rng : Key)
    (sg : TState P O) (batch : Fin D → CollatedBatch n)
    (dropoutRngs : Fin D → Key) (d : Fin D)
    (h : ∀ i, (batch d).masked_indices i = false →
      (batch d).input_ids i = (batch d).original_ids i) :
    ∀ i, (stepReplacedIds gc rng sg batch dropoutRngs d i = true ↔
        (stepSampledIds gc rng sg batch dropoutRngs d i ≠ (batch d).original_ids i ∧
          (batch d).masked_indices i = true)) ∧
      ((batch d).masked_indices i = false →
        stepReplacedIds gc rng sg batch dropoutRngs d i = false) := by
  intro i
  by_cases hm : (batch d).masked_indices i
  · simp [stepReplacedIds, stepPredIds, hm]
  · have hb : (batch d).masked_indices i = false := by simpa using hm
    simp [stepReplacedIds, stepPredIds, hb, h i hb]

/-- C2 witness: concrete one-position instance with the position masked,
sampled id 0 and original id 7. -/
theorem c2_witness :
    (∀ i, (batchW 0).masked_indices i = false →
      (batchW 0).input_ids i = (batchW 0).original_ids i) ∧
    ∀ i, (stepReplacedIds gcW (mainRng 42) sgW batchW (mainDropoutRngs 42 1) 0 i = true ↔
        (stepSampledIds gcW (mainRng 42) sgW batchW (mainDropoutRngs 42 1) 0 i ≠
            (batchW 0).original_ids i ∧
          (batchW 0).masked_indices i = true)) ∧
      ((batchW 0).masked_indices i = false →
        stepReplacedIds gcW (mainRng 42) sgW batchW (mainDropoutRngs 42 1) 0 i = false) :=
  ⟨by decide,
   c2_replaced_ids_iff gcW (mainRng 42) sgW batchW (mainDropoutRngs 42 1) 0 (by decide)⟩

/-- C3: the claim fails on the code.  The Gumbel noise of every step is drawn
from `main`'s fixed closure key `PRNGKey(seed)` — it is invariant in the
step's incoming rng (first two conjuncts), so distinct incoming rngs on two
steps or two devices yield identical sampling noise, and the sampling stream
`sample_rng` split from the incoming rng, which the claim says is consumed, is
never the key used (third conjunct: no split's third component equals the key
actually passed).  Only the freshness of the returned seed holds: the step
returns `new_dropout_rng`, distinct from the consumed key and from the
dropout stream (last two conjuncts). -/
theorem c3_sampling_stream_unused (gc : GenCollab n V E D P G O)
    (dc : DiscCollab n E D Q H R) (seed : Nat) (sg : TState P O) (sd : TState Q R)
    (batch : Fin D → CollatedBatch n) (keys : Fin D → Key) :
    (∀ k₁ k₂ : Key, stepGumbelNoise gc (mainRng seed) k₁ =
      stepGumbelNoise gc (mainRng seed) k₂) ∧
    stepGumbelNoise gc (mainRng seed) (mainRng seed) = gc.gumbel (Key.prngKey seed) ∧
    (∀ (ks : Fin D → Key) (d : Fin D), deviceSampleKey ks d ≠ mainRng seed) ∧
    (∀ (ks : Fin D → Key) (d : Fin D), deviceNextKey ks d ≠ ks d ∧
      deviceNextKey ks d ≠ deviceDropoutKey ks d) ∧
    (trainStep gc dc (mainRng seed) sg sd batch keys).2.2.2 =
      fun d => deviceNextKey keys d := by
  refine ⟨fun _ _ => rfl, rfl, ?_, ?_, rfl⟩
  · intro ks d
    simp [deviceSampleKey, split3, mainRng]
  · intro ks d
    exact ⟨key_child_ne (ks d) 1, by simp [deviceNextKey, deviceDropoutKey, split3]⟩

/-- C4: the claim fails on the code.  The metrics record built by the step
has exactly the keys `generator_loss` and `discriminator_loss` (second and
third conjuncts), but the driver's logging call reads the key `loss`, which is
absent (first conjunct) — at runtime this raises `KeyError` at the first
logging boundary instead of emitting the two losses. -/
theorem c4_logging_reads_missing_key (gc : GenCollab n V E D P G O)
    (dc : DiscCollab n E D Q H R) (rng : Key) (sg : TState P O) (sd : TState Q R)
    (batch : Fin D → CollatedBatch n) (keys : Fin D → Key) (d : Fin D) :
    wandbLoggedLoss ((trainStep gc dc rng sg sd batch keys).2.2.1 d) = none ∧
    ((trainStep gc dc rng sg sd batch keys).2.2.1 d).lookup ("generator_loss") =
      some (stepGenLossNorm gc sg batch keys) ∧
    ((trainStep gc dc rng sg sd batch keys).2.2.1 d).lookup ("discriminator_loss") =
      some (stepDiscLossNorm gc dc rng sg sd batch keys) := by
  refine ⟨rfl, rfl, rfl⟩

/-- C7: structure of the generator loss.  The summed loss equals the sum of
the per-position softmax cross-entropy restricted to the positions with
`labels > 0`, `num_labels` is the count of those positions, and a position
belongs to that set iff its label is strictly positive — so a masked position
whose true label id is 0 contributes to neither. -/
theorem c7_generator_loss_structure (gc : GenCollab n V E D P G O)
    (b : CollatedBatch n) (dk : Key) (params : P) :
    genLossVal gc b dk params =
      (∑ i ∈ Finset.univ.filter (fun i : Fin n => 0 < b.labels i),
        gc.sce (gc.applyFn params b.input_ids b.attention_mask dk i)
          (onehot V (b.labels i))) ∧
    genNumLabels b =
      ((Finset.univ.filter (fun i : Fin n => 0 < b.labels i)).card : ℚ) ∧
    ∀ i, (i ∈ Finset.univ.filter (fun i : Fin n => 0 < b.labels i) ↔ 0 < b.labels i) := by
  refine ⟨?_, ?_, ?_⟩
  · rw [Finset.sum_filter]
    refine Finset.sum_congr rfl fun i _ => ?_
    by_cases hl : 0 < b.labels i <;> simp [genLossVal, labelMask, hl]
  · simp [genNumLabels, labelMask, Finset.sum_boole]
  · intro i; simp

/-- C8: the globally normalized generator loss returned in the metrics on
every device is the cross-device sum of per-device summed losses divided by
the cross-device sum of per-device masked-token counts (first conjunct), the
metric is identical on every device (second conjunct), the generator gradient
is normalized by the same global count (third conjunct), and this
count-weighted mean differs from the unweighted mean of per-device means
(last conjunct: losses (2,3) with counts (1,3) give 5/4, not 3/2). -/
theorem c8_count_weighted_mean (gc : GenCollab n V E D P G O)
    (dc : DiscCollab n E D Q H R) (rng : Key) (sg : TState P O) (sd : TState Q R)
    (batch : Fin D → CollatedBatch n) (keys : Fin D → Key) (d : Fin D) :
    ((trainStep gc dc rng sg sd batch keys).2.2.1 d).lookup ("generator_loss") =
      some ((∑ d', genLossVal gc (batch d') (deviceDropoutKey keys d') sg.params) /
        (∑ d', genNumLabels (batch d'))) ∧
    (∀ d₁ d₂ : Fin D, (trainStep gc dc rng sg sd batch keys).2.2.1 d₁ =
      (trainStep gc dc rng sg sd batch keys).2.2.1 d₂) ∧
    stepGenGrad gc sg batch keys =
      gc.divGrad (gc.psumGrad fun d' =>
        gc.valueAndGrad (genLossVal gc (batch d') (deviceDropoutKey keys d')) sg.params)
        (∑ d', genNumLabels (batch d')) ∧
    globalNormalize 2 (fun d' => if d' = 0 then 2 else 3)
        (fun d' => if d' = 0 then 1 else 3) ≠
      (((2 : ℚ) / 1) + 3 / 3) / 2 := by
  refine ⟨rfl, fun _ _ => rfl, rfl, ?_⟩
  have hg : globalNormalize 2 (fun d' => if d' = 0 then (2 : ℚ) else 3)
      (fun d' => if d' = 0 then (1 : ℚ) else 3) = 5 / 4 := by
    simp [globalNormalize, Fin.sum_univ_two]
    norm_num
  rw [hg]
  norm_num

/-- C9: frame property of the generator update.  The new generator state
returned by the step is the same for any two discriminator collaborator
bundles and states (first conjunct) and equals `stepNewStateG`, a definition
built from generator-side objects only (second conjunct); the discriminator
update consumes the gradient of the discriminator loss as a function of the
discriminator parameters alone, with the generator embedding table read at
the fixed incoming `state_g.params` (third conjunct). -/
theorem c9_generator_state_frame (gc : GenCollab n V E D P G O)
    (dc₁ : DiscCollab n E D Q₁ H₁ R₁) (dc₂ : DiscCollab n E D Q₂ H₂ R₂)
    (rng₁ rng₂ : Key) (sg : TState P O) (sd₁ : TState Q₁ R₁) (sd₂ : TState Q₂ R₂)
    (batch : Fin D → CollatedBatch n) (keys : Fin D → Key) :
    (trainStep gc dc₁ rng₁ sg sd₁ batch keys).1 =
      (trainStep gc dc₂ rng₂ sg sd₂ batch keys).1 ∧
    (trainStep gc dc₁ rng₁ sg sd₁ batch keys).1 =
      (fun _ => stepNewStateG gc sg batch keys) ∧
    stepDiscGrad gc dc₁ rng₁ sg sd₁ batch keys =
      dc₁.divGrad (dc₁.psumGrad fun d =>
        dc₁.valueAndGrad (discLossVal gc dc₁ rng₁ sg batch keys d) sd₁.params)
        (stepNumLabelsD n D) :=
  ⟨rfl, rfl, rfl⟩

/-- C10: the discriminator pass reads only the pre-update generator state.
Replacing the generator optimizer update `applyGradients` (the only producer
of the new generator state) by any other function changes neither the new
discriminator state, nor the metrics, nor the sampled `pred_ids` (first three
conjuncts) — so nothing in the discriminator pass depends on the just-updated
generator state, even though that state is produced from exactly this update
function (fourth conjunct); the logits fed to Gumbel-max sampling and the
embedding table averaged into the discriminator inputs come from the incoming
`state_g.params` (last two conjuncts). -/
theorem c10_disc_reads_pre_update_generator (gc : GenCollab n V E D P G O)
    (f₁ f₂ : TState P O → G → TState P O) (dc : DiscCollab n E D Q H R)
    (rng : Key) (sg : TState P O) (sd : TState Q R)
    (batch : Fin D → CollatedBatch n) (keys : Fin D → Key) :
    (trainStep { gc with applyGradients := f₁ } dc rng sg sd batch keys).2.1 =
      (trainStep { gc with applyGradients := f₂ } dc rng sg sd batch keys).2.1 ∧
    (trainStep { gc with applyGradients := f₁ } dc rng sg sd batch keys).2.2.1 =
      (trainStep { gc with applyGradients := f₂ } dc rng sg sd batch keys).2.2.1 ∧
    stepPredIds { gc with applyGradients := f₁ } rng sg batch keys =
      stepPredIds gc rng sg batch keys ∧
    (trainStep { gc with applyGradients := f₁ } dc rng sg sd batch keys).1 =
      (fun _ => f₁ sg (stepGenGrad gc sg batch keys)) ∧
    stepGenLogits gc sg batch keys =
      (fun d => gc.applyFn sg.params (batch d).input_ids (batch d).attention_mask
        (deviceDropoutKey keys d)) ∧
    stepInputEmbeds gc dc rng sg batch keys sd.params =
      (fun d i e =>
        (dc.wordEmb sd.params (stepPredIds gc rng sg batch keys d i) e +
          gc.wordEmb sg.params (stepPredIds gc rng sg batch keys d i) e) / 2) :=
  ⟨rfl, rfl, rfl, rfl, rfl, rfl⟩

end KoRoBERTa
